import Mathlib

/-!
Verification of the MBBuddy mind-map pipeline (`backend/api/mindmap_api.py`).

The Python source is shallowly embedded: strings are Lean `String`s
(lists of characters), Python ints and floats are both modelled as `ℚ`
(exact rationals; the float literals 0.9 and 0.6 in the source become the
rationals 9/10 and 6/10, and Python's binary-float rounding is not
modelled), Python `//` is modelled by rational floor division, and raised
exceptions become `Except` errors.  Python's whitespace set for
`str.strip()` / `str.split()` is modelled by the six ASCII whitespace
characters.  Numbers interpolated into the SVG text are rendered by
`ratStr` (exact-rational rendering standing in for Python's float/int
formatting; no claim inspects these numeric substrings).
-/

namespace MBBuddy

/-- The whitespace characters of Python's `str.strip()` / `str.split()`
(ASCII subset: space, tab, newline, carriage return, vertical tab, form feed). -/
def pyIsSpace (c : Char) : Bool :=
  c = ' ' || c = '\t' || c = '\n' || c = '\r' || c = '\x0b' || c = '\x0c'

/-- `str.lstrip()` on a character list: drop leading whitespace. -/
def stripLeft (l : List Char) : List Char := l.dropWhile pyIsSpace

/-- `str.rstrip()` on a character list: drop trailing whitespace. -/
def stripRight (l : List Char) : List Char := (l.reverse.dropWhile pyIsSpace).reverse

/-- `str.strip()` on a character list. -/
def stripChars (l : List Char) : List Char := stripRight (stripLeft l)

/-- Python `s.strip()`. -/
def pyStrip (s : String) : String := ⟨stripChars s.data⟩

/-- Python `s.lstrip(chars)`: drop leading characters belonging to `cs`. -/
def lstripSet (cs : List Char) (l : List Char) : List Char :=
  l.dropWhile (fun c => c ∈ cs)

/-- Python `s.split(sep)` for a one-character separator (e.g. `split('\n')`):
every occurrence of the separator is a cut point, and empty pieces are kept;
`"".split(sep) = [""]`. -/
def splitOnChar (sep : Char) : List Char → List (List Char)
  | [] => [[]]
  | c :: cs =>
    let r := splitOnChar sep cs
    if c = sep then [] :: r
    else
      match r with
      | [] => [[c]]
      | h :: t => (c :: h) :: t

/-- Python `s.split()` (no argument): split on runs of whitespace, with no
empty pieces in the result. -/
def splitWS : List Char → List (List Char)
  | [] => []
  | c :: cs =>
    let r := splitWS cs
    if pyIsSpace c then r
    else
      match cs with
      | [] => [[c]]
      | d :: _ =>
        if pyIsSpace d then [c] :: r
        else
          match r with
          | [] => [[c]]
          | w :: ws => (c :: w) :: ws

/-- Python `text.split()` at the `String` level. -/
def pySplitWords (s : String) : List String := (splitWS s.data).map (fun w => ⟨w⟩)

/-- `'\n'.join(pieces)` / the space join used implicitly by greedy wrapping. -/
def joinWith (sep : List Char) : List (List Char) → List Char
  | [] => []
  | [w] => w
  | w :: ws => w ++ sep ++ joinWith sep ws

/-- `'\n'.join(lines)` at the `String` level. -/
def joinLines (lines : List String) : String :=
  ⟨joinWith ['\n'] (lines.map String.data)⟩

/-! ## Text metrics (`calculate_text_width`, `wrap_text`) -/

/-- `calculate_text_width(text, font_size)` (lines 112–122 of
`mindmap_api.py`): characters with code point above 127 count as wide
(0.9 × font size), the rest as narrow (0.6 × font size). -/
def calculate_text_width (text : String) (font_size : ℚ) : ℚ :=
  let chinese_chars : ℚ := ((text.data.filter (fun c => 127 < c.toNat)).length : ℚ)
  let english_chars : ℚ := ((text.data.length : ℚ) - chinese_chars)
  chinese_chars * font_size * (9/10) + english_chars * font_size * (6/10)

/-- One iteration of the greedy word-packing loop of `wrap_text`
(lines 133–140): state is `(lines so far, current_line)`. -/
def wrapStep (max_width font_size : ℚ) (acc : List String × String) (word : String) :
    List String × String :=
  let test_line := if acc.2 = "" then word else acc.2 ++ " " ++ word
  if calculate_text_width test_line font_size ≤ max_width then (acc.1, test_line)
  else if acc.2 = "" then (acc.1, word)
  else (acc.1 ++ [acc.2], word)

/-- `wrap_text(text, max_width, font_size)` (lines 124–145): return `[text]`
when it already fits, otherwise greedily pack the whitespace-separated words
into lines, falling back to `[text]` when no line was produced. -/
def wrap_text (text : String) (max_width font_size : ℚ) : List String :=
  if calculate_text_width text font_size ≤ max_width then [text]
  else
    let words := pySplitWords text
    let p := words.foldl (wrapStep max_width font_size) ([], "")
    let lines := if p.2 = "" then p.1 else p.1 ++ [p.2]
    if lines.isEmpty then [text] else lines

/-! ## Outline parser (`parse_markdown_to_simple_structure`) -/

/-- The two node kinds of the parsed outline (`'type'` in the Python dicts). -/
inductive NodeKind where
  | heading
  | item
deriving DecidableEq, Repr

/-- One outline node: `{'level': …, 'title': …, 'type': …}`. -/
structure OutlineNode where
  level : Nat
  title : String
  kind : NodeKind
deriving DecidableEq, Repr

/-- The nodes contributed by a single physical line of the markdown
(lines 89–108): strip the line, skip it when blank, emit a heading node for
a leading `#` (level = number of leading `#`, title = `lstrip('# ').strip()`),
emit an item node for a leading `-`, and ignore anything else. -/
def lineNodes (rawLine : List Char) : List OutlineNode :=
  let line := stripChars rawLine
  match line with
  | [] => []
  | c :: _ =>
    if c = '#' then
      let level := line.length - (lstripSet ['#'] line).length
      let title : String := ⟨stripChars (lstripSet ['#', ' '] line)⟩
      [⟨level, title, .heading⟩]
    else if c = '-' then
      [⟨0, ⟨stripChars (lstripSet ['-', ' '] line)⟩, .item⟩]
    else []

/-- `parse_markdown_to_simple_structure(markdown_content)` (lines 84–110):
strip the whole text, split it into physical lines, and accumulate the
nodes of each line in order. -/
def parse_markdown_to_simple_structure (markdown_content : String) : List OutlineNode :=
  let lines := splitOnChar '\n' (pyStrip markdown_content).data
  lines.foldl (fun st l => st ++ lineNodes l) []

/-! ## Tree builder (the fold at lines 190–213 of `create_simple_svg_mindmap`) -/

/-- A subtopic: `{'title': …, 'items': […]}`. -/
structure Subtopic where
  title : String
  items : List String
deriving DecidableEq, Repr

/-- A topic: `{'title': …, 'subtopics': […], 'items': […]}` (the `items`
field holds the loose items that precede any subtopic). -/
structure Topic where
  title : String
  subtopics : List Subtopic
  items : List String
deriving DecidableEq, Repr

/-- Apply `f` to the last element of a list (the Python code mutates
`current_topic`, which is always the last element of `main_topics`, and
`subtopics[-1]`). -/
def updateLast {α : Type} (f : α → α) : List α → List α
  | [] => []
  | [a] => [f a]
  | a :: rest => a :: updateLast f rest

/-- One iteration of the tree-building loop (lines 194–213): a level-1
heading opens a new topic, a level-2 heading opens a new subtopic of the
current topic, any other heading is ignored, and an item attaches to the
last subtopic of the current topic (or to the topic's loose items when it
has no subtopic yet); items and level-2 headings before any topic are
dropped. -/
def treeStep (acc : List Topic) (nd : OutlineNode) : List Topic :=
  match nd.kind with
  | .heading =>
    if nd.level = 1 then
      acc ++ [⟨nd.title, [], []⟩]
    else if nd.level = 2 then
      if acc.isEmpty then acc
      else updateLast (fun t => { t with subtopics := t.subtopics ++ [⟨nd.title, []⟩] }) acc
    else acc
  | .item =>
    if acc.isEmpty then acc
    else
      updateLast (fun t =>
        if t.subtopics.isEmpty then { t with items := t.items ++ [nd.title] }
        else
          let subs := updateLast (fun s => { s with items := s.items ++ [nd.title] }) t.subtopics
          { t with subtopics := subs }) acc

/-- The whole tree-building fold over the parsed structure. -/
def buildTree (st : List OutlineNode) : List Topic := st.foldl treeStep []

/-! ## Diagram layout and SVG renderer (`create_simple_svg_mindmap`) -/

/-- Python `//` (floor division) on the rational model of Python numbers. -/
def qfdiv (a b : ℚ) : ℚ := (⌊a / b⌋ : ℚ)

/-- Rendering of a number interpolated into the SVG f-strings.  Python
formats its ints/floats decimally; the exact-rational `toString` stands in
for that (no claim inspects these numeric substrings). -/
def ratStr (q : ℚ) : String := toString q

/-- Python `max` over a nonempty list of widths (`max(...)` raises on an
empty argument; `wrap_text` never returns an empty list, so the `[]` case
is unreachable and yields `0`). -/
def maxQ : List ℚ → ℚ
  | [] => 0
  | x :: xs => xs.foldl max x

/-- `colors['background']` of the palette dict (lines 153–161). -/
def colors_background : String := "#f8fffe"

/-- `colors['main']`. -/
def colors_main : String := "#2e7d6b"

/-- `colors['level1']`. -/
def colors_level1 : String := "#4a9b8e"

/-- `colors['level2']`. -/
def colors_level2 : String := "#7bb3a9"

/-- `colors['level3']`. -/
def colors_level3 : String := "#a8cdc4"

/-- `colors['text']`. -/
def colors_text : String := "#1a4037"

/-- `colors['line']`. -/
def colors_line : String := "#4a9b8e"

/-- `main_x` (line 236): x-coordinate of the root box center. -/
def main_x : ℚ := 100

/-- `main_y = height // 2` (line 235): y-coordinate of the root box center,
with the canvas fixed at 1200×800. -/
def main_y : ℚ := qfdiv 800 2

/-- `branch_spacing = min(150, (height - 200) // total_branches)`
(line 260). -/
def branch_spacing (total_branches : ℚ) : ℚ :=
  min 150 (qfdiv (800 - 200) total_branches)

/-- `start_y = main_y - (total_branches - 1) * branch_spacing // 2`
(line 261): the y-coordinate of the topmost subtopic box. -/
def branch_start_y (total_branches : ℚ) : ℚ :=
  main_y - qfdiv ((total_branches - 1) * branch_spacing total_branches) 2

/-- `branch_y = start_y + i * branch_spacing` (line 264): the y-coordinate
of the i-th subtopic box. -/
def branch_y_at (total_branches i : ℚ) : ℚ :=
  branch_start_y total_branches + i * branch_spacing total_branches

/-- The fixed SVG prelude (the f-string at lines 163–188): xml header,
gradients, drop-shadow filter, css classes and the background rectangle. -/
def svgHeader : String :=
  "<?xml version=\"1.0\" encoding=\"UTF-8\"?>\n<svg width=\"1200\" height=\"800\" xmlns=\"http://www.w3.org/2000/svg\">\n    <defs>\n        <linearGradient id=\"mainGrad\" x1=\"0%\" y1=\"0%\" x2=\"100%\" y2=\"0%\">\n            <stop offset=\"0%\" style=\"stop-color:"
  ++ colors_main ++
  ";stop-opacity:1\" />\n            <stop offset=\"100%\" style=\"stop-color:"
  ++ colors_level1 ++
  ";stop-opacity:1\" />\n        </linearGradient>\n        <linearGradient id=\"branchGrad\" x1=\"0%\" y1=\"0%\" x2=\"100%\" y2=\"0%\">\n            <stop offset=\"0%\" style=\"stop-color:"
  ++ colors_level1 ++
  ";stop-opacity:1\" />\n            <stop offset=\"100%\" style=\"stop-color:"
  ++ colors_level2 ++
  ";stop-opacity:1\" />\n        </linearGradient>\n        <filter id=\"shadow\" x=\"-20%\" y=\"-20%\" width=\"140%\" height=\"140%\">\n            <feDropShadow dx=\"2\" dy=\"2\" stdDeviation=\"3\" flood-opacity=\"0.3\"/>\n        </filter>\n    </defs>\n    \n    <style>\n        .main-title \x7b font-family: \x27Arial\x27, sans-serif; font-size: 18px; font-weight: bold; fill: white; \x7d\n        .branch-title \x7b font-family: \x27Arial\x27, sans-serif; font-size: 14px; font-weight: 600; fill: white; \x7d\n        .item-text \x7b font-family: \x27Arial\x27, sans-serif; font-size: 11px; fill: "
  ++ colors_text ++
  "; \x7d\n        .connector \x7b stroke: "
  ++ colors_line ++
  "; stroke-width: 2; fill: none; \x7d\n    </style>\n    \n    <!-- 背景 -->\n    <rect width=\"1200\" height=\"800\" fill=\""
  ++ colors_background ++ "\"/>\n"

/-- The item boxes of one subtopic (lines 288–312): at most 5 items, each
with a thin connector line, a rounded rect and its wrapped text lines. -/
def renderItems (branch_start_x branch_width branch_y : ℚ) (items : List String) : String :=
  let item_start_x := branch_start_x + branch_width + 30
  ((items.take 5).enum).foldl (fun acc p =>
    let j := p.1
    let item := p.2
    let item_y := branch_y + ((j : ℚ) - 2) * 30
    let item_lines := wrap_text item 150 11
    let item_width := max 100 (maxQ (item_lines.map (fun l => calculate_text_width l 11)) + 20)
    let item_height := max 20 ((item_lines.length : ℚ) * 14 + 6)
    acc
    ++ "\n    <line x1=\"" ++ ratStr (branch_start_x + branch_width) ++ "\" y1=\"" ++ ratStr branch_y
    ++ "\" x2=\"" ++ ratStr item_start_x ++ "\" y2=\"" ++ ratStr item_y
    ++ "\" class=\"connector\" stroke-width=\"1\"/>\n"
    ++ "\n    <rect x=\"" ++ ratStr item_start_x ++ "\" y=\"" ++ ratStr (item_y - qfdiv item_height 2)
    ++ "\" \n          width=\"" ++ ratStr item_width ++ "\" height=\"" ++ ratStr item_height
    ++ "\" \n          fill=\"" ++ colors_level3 ++ "\" stroke=\"" ++ colors_level2
    ++ "\" stroke-width=\"1\" rx=\"10\" opacity=\"0.9\"/>\n"
    ++ (item_lines.enum).foldl (fun acc2 q =>
        let k := q.1
        let line := q.2
        let line_y := item_y - ((item_lines.length : ℚ) - 1) * 7 + (k : ℚ) * 14
        acc2 ++ "<text x=\"" ++ ratStr (item_start_x + 10) ++ "\" y=\"" ++ ratStr (line_y + 3)
        ++ "\" class=\"item-text\">" ++ line ++ "</text>\n") "") ""

/-- One subtopic branch (lines 263–312): connector from the root, rounded
rect, wrapped title lines, then the subtopic's item boxes. -/
def renderBranch (title_width branch_start_x total_branches : ℚ) (p : Nat × Subtopic) : String :=
  let i := p.1
  let subtopic := p.2
  let branch_y := branch_y_at total_branches (i : ℚ)
  let branch_title_lines := wrap_text subtopic.title 200 14
  let branch_width := max 120 (maxQ (branch_title_lines.map (fun l => calculate_text_width l 14)) + 30)
  let branch_height := max 35 ((branch_title_lines.length : ℚ) * 18 + 10)
  "\n    <path d=\"M " ++ ratStr (main_x + qfdiv title_width 2) ++ " " ++ ratStr main_y
  ++ " Q " ++ ratStr (branch_start_x - 20) ++ " " ++ ratStr main_y
  ++ " " ++ ratStr (branch_start_x - 20) ++ " " ++ ratStr branch_y ++ "\" class=\"connector\"/>\n    <line x1=\""
  ++ ratStr (branch_start_x - 20) ++ "\" y1=\"" ++ ratStr branch_y ++ "\" x2=\"" ++ ratStr branch_start_x
  ++ "\" y2=\"" ++ ratStr branch_y ++ "\" class=\"connector\"/>\n"
  ++ "\n    <rect x=\"" ++ ratStr branch_start_x ++ "\" y=\"" ++ ratStr (branch_y - qfdiv branch_height 2)
  ++ "\" \n          width=\"" ++ ratStr branch_width ++ "\" height=\"" ++ ratStr branch_height
  ++ "\" \n          fill=\"url(#branchGrad)\" rx=\"17\" filter=\"url(#shadow)\"/>\n"
  ++ (branch_title_lines.enum).foldl (fun acc q =>
      let j := q.1
      let line := q.2
      let line_y := branch_y - ((branch_title_lines.length : ℚ) - 1) * 9 + (j : ℚ) * 18
      acc ++ "<text x=\"" ++ ratStr (branch_start_x + qfdiv branch_width 2) ++ "\" y=\"" ++ ratStr (line_y + 4)
      ++ "\" text-anchor=\"middle\" class=\"branch-title\">" ++ line ++ "</text>\n") ""
  ++ renderItems branch_start_x branch_width branch_y subtopic.items

/-- The body drawn for `main_topics[0]` (lines 233–312): root box with its
wrapped title, then the fanned subtopic branches. -/
def renderTopic (main_topic : Topic) : String :=
  let main_title_lines := wrap_text main_topic.title 300 18
  let title_width := max 160 (maxQ (main_title_lines.map (fun l => calculate_text_width l 18)) + 40)
  let title_height := max 50 ((main_title_lines.length : ℚ) * 22 + 10)
  let rootBox :=
    "\n    <!-- 主標題 -->\n    <rect x=\"" ++ ratStr (main_x - qfdiv title_width 2)
    ++ "\" y=\"" ++ ratStr (main_y - qfdiv title_height 2)
    ++ "\" \n          width=\"" ++ ratStr title_width ++ "\" height=\"" ++ ratStr title_height
    ++ "\" \n          fill=\"url(#mainGrad)\" rx=\"25\" filter=\"url(#shadow)\"/>\n"
  let rootText :=
    (main_title_lines.enum).foldl (fun acc p =>
      let i := p.1
      let line := p.2
      let line_y := main_y - ((main_title_lines.length : ℚ) - 1) * 11 + (i : ℚ) * 22
      acc ++ "<text x=\"" ++ ratStr main_x ++ "\" y=\"" ++ ratStr (line_y + 5)
      ++ "\" text-anchor=\"middle\" class=\"main-title\">" ++ line ++ "</text>\n") ""
  let branch_start_x := main_x + qfdiv title_width 2 + 50
  let total_branches := main_topic.subtopics.length
  let branches :=
    if 0 < total_branches then
      (main_topic.subtopics.enum).foldl
        (fun acc p => acc ++ renderBranch title_width branch_start_x (total_branches : ℚ) p) ""
    else ""
  rootBox ++ rootText ++ branches

/-- The canned default structure substituted when the tree builder found no
topic (lines 216–230). -/
def default_main_topics : List Topic :=
  [⟨"人工智慧的未來",
    [⟨"技術發展", ["機器學習進步", "深度學習突破", "自然語言處理"]⟩,
     ⟨"應用領域", ["醫療診斷", "智能交通", "金融科技"]⟩], []⟩]

/-- The SVG document produced from a (post-substitution) topic list:
prelude, the first topic's drawing if any, and the closing tag
(lines 232–315). -/
def svgOfTopics (main_topics : List Topic) : String :=
  svgHeader
  ++ (match main_topics with
      | [] => ""
      | t :: _ => renderTopic t)
  ++ "</svg>"

/-- `create_simple_svg_mindmap(structure)` (lines 147–315): fold the
outline into a topic tree, substitute the canned default when it is empty,
and emit the SVG document. -/
def create_simple_svg_mindmap (st : List OutlineNode) : String :=
  let main_topics := buildTree st
  let main_topics := if main_topics.isEmpty then default_main_topics else main_topics
  svgOfTopics main_topics

/-! ## Markdown fence stripping (lines 365–368 and 481–484) -/

/-- The code-fence cleanup applied to the AI's returned text in both
`generate_mindmap` and `preview_mindmap_markdown`: strip the text, and when
it starts with a triple-backtick fence and splits into more than 2 lines,
drop the first and last line (without checking the last line is a fence). -/
def stripFence (raw : String) : String :=
  let markdown_content := pyStrip raw
  if ("```".data).isPrefixOf markdown_content.data then
    let lines := splitOnChar '\n' markdown_content.data
    if 2 < lines.length then ⟨joinWith ['\n'] ((lines.drop 1).dropLast)⟩
    else markdown_content
  else markdown_content

/-! ## Room store, prompt builder (`build_mindmap_prompt`) -/

/-- A room of the in-memory `ROOMS` store: only the fields `mindmap_api.py`
reads (`room_data.get('title')`, `room_data.get('workspace_slug')`). -/
structure Room where
  title : Option String
  workspace_slug : Option String
deriving DecidableEq, Repr

/-- A comment dict of a topic (`comment.get('id'/'nickname'/'content')`). -/
structure CommentRec where
  id : Option String
  nickname : Option String
  content : Option String
deriving DecidableEq, Repr

/-- A vote tally of the `votes` store (`.get('good'/'bad', [])`). -/
structure VoteRec where
  good : List String
  bad : List String
deriving DecidableEq, Repr

/-- A topic dict of the `topics` store (`room_id`, `.get('topic_name', …)`,
`comments`). -/
structure TopicRec where
  room_id : String
  topic_name : Option String
  comments : List CommentRec
deriving DecidableEq, Repr

/-- The fixed instruction block appended to the prompt (lines 56–80). -/
def promptFooter : String :=
  "\n請根據以上內容,生成一個結構化的心智圖 Markdown 格式:\n\n要求:\n1. 使用 # 作為主標題 (主題列表)\n2. 使用 ## 作為次級標題 (各個討論主題)\n3. 使用 - 作為要點列表 (重要觀點、共識、分歧點)\n4. 內容要精煉、結構清晰\n5. 突出重點和共識\n6. 標注有爭議的觀點\n7. 使用繁體中文\n\n範例格式:\n# 討論主題名稱\n## 主題一\n- 主要觀點1\n- 主要觀點2\n- 共識: xxx\n## 主題二  \n- 重點1\n- 重點2\n- 分歧: xxx\n\n請直接輸出 Markdown 格式,不要任何前綴說明:\n"

/-- The comment line rendered into the prompt (line 53):
`- {nickname}: {content} (👍{good_votes} 👎{bad_votes})`. -/
def commentLine (votes : String → Option VoteRec) (c : CommentRec) : String :=
  let nickname := c.nickname.getD "匿名"
  let content := c.content.getD ""
  let good_votes := match c.id with
    | none => 0
    | some i => ((votes i).getD ⟨[], []⟩).good.length
  let bad_votes := match c.id with
    | none => 0
    | some i => ((votes i).getD ⟨[], []⟩).bad.length
  "- " ++ nickname ++ ": " ++ content ++ " (👍" ++ toString good_votes
  ++ " 👎" ++ toString bad_votes ++ ")\n"

/-- `build_mindmap_prompt(room_code)` (lines 20–82): `None` when the room
is absent, otherwise the header plus either a no-topics notice or the
per-topic blocks (with comment lines and vote tallies) and the fixed
instruction footer. -/
def build_mindmap_prompt (rooms : String → Option Room)
    (topicsStore : List (String × TopicRec)) (votes : String → Option VoteRec)
    (room_code : String) : Option String :=
  match rooms room_code with
  | none => none
  | some _ =>
    let base := "請為以下討論室的內容生成一個結構化的心智圖 Markdown 格式總結。"
    let room_topics := topicsStore.filter (fun p => p.2.room_id = room_code)
    if room_topics.isEmpty then some (base ++ "目前討論室還沒有任何主題。\n")
    else
      let body := room_topics.foldl (fun acc p =>
        let topic_name := p.2.topic_name.getD "未命名主題"
        let block := "## 主題: " ++ topic_name ++ "\n\n"
        let block := if p.2.comments.isEmpty then block
          else block ++ "留言:\n"
            ++ (p.2.comments.foldl (fun a c => a ++ commentLine votes c) "") ++ "\n"
        acc ++ block) ""
      some (base ++ "討論主題與內容:\n\n" ++ body ++ promptFooter)

/-! ## The two endpoints (`generate_mindmap`, `preview_mindmap_markdown`)

The HTTP layer is embedded as pure functions over explicit inputs: the room
store, the topic and vote stores, the outcome of the awaited AI interaction
(the `ensure_workspace_exists` + `transparent_fusion.process_request`
block; `.error msg` models it raising an exception whose `str` is `msg`),
and the content of the first `AIresult.txt` fallback file found (if any).
A raised `HTTPException(s, d)` or generic exception becomes a `PyExc`
error; each endpoint's outer `try/except` then maps it to the final
`HTTPError`.  The success value of `generate_mindmap` is the SVG document
string (the timestamped filename of the `FileResponse` lives outside the
document and is not modelled). -/

/-- `fastapi.HTTPException`, reduced to the fields the API sets. -/
structure HTTPError where
  status_code : Nat
  detail : String
deriving DecidableEq, Repr

/-- An exception propagating inside an endpoint body: either an
`HTTPException` or a generic one carrying its `str()`. -/
inductive PyExc where
  | http (e : HTTPError)
  | generic (msg : String)
deriving DecidableEq, Repr

/-- Python `str(exc)`; for `HTTPException`, starlette renders
`f"{status_code}: {detail}"`. -/
def pyExcMessage : PyExc → String
  | .http e => toString e.status_code ++ ": " ++ e.detail
  | .generic m => m

/-- The request body `MindMapRequest` (room_code, custom_content). -/
structure MindMapRequest where
  room_code : Option String
  custom_content : Option String
deriving DecidableEq, Repr

/-- Python truthiness of an optional string: `None` and `""` are falsy. -/
def optStrTruthy : Option String → Option String
  | some s => if s = "" then none else some s
  | none => none

/-- The default markdown example used when no room, no custom content and
no fallback file is available (lines 402–410). -/
def default_example_markdown : String :=
  "# AI心智圖示例\n## 人工智慧應用\n- 機器學習\n- 深度學習\n- 自然語言處理\n## 技術發展\n- 神經網路\n- 大型語言模型\n- 電腦視覺"

/-- Lines 412–425 of `generate_mindmap`: parse the chosen markdown, raise
400 when the structure is empty, otherwise render the SVG. -/
def renderPipeline (markdown_content : String) : Except PyExc String :=
  let st := parse_markdown_to_simple_structure markdown_content
  if st.isEmpty then .error (.http ⟨400, "無法解析markdown內容"⟩)
  else .ok (create_simple_svg_mindmap st)

/-- Lines 322–410 of `generate_mindmap`: choose the markdown source.  A
room code takes precedence (404 when absent, 400 when no prompt can be
built, AI text — fence-stripped — on success, `"# " + room title` as local
fallback when the AI interaction raises); otherwise custom content;
otherwise the fallback file; otherwise the canned example. -/
def generate_markdown_source (rooms : String → Option Room)
    (topicsStore : List (String × TopicRec)) (votes : String → Option VoteRec)
    (aiResult : Except String String) (fileContent : Option String)
    (request : Option MindMapRequest) : Except PyExc String :=
  match request with
  | none => .ok (fileContent.getD default_example_markdown)
  | some req =>
    match optStrTruthy req.room_code with
    | some rc =>
      match rooms rc with
      | none => .error (.http ⟨404, "找不到討論室: " ++ rc⟩)
      | some room =>
        match build_mindmap_prompt rooms topicsStore votes rc with
        | none => .error (.http ⟨400, "無法構建心智圖 prompt"⟩)
        | some prompt =>
          if prompt = "" then .error (.http ⟨400, "無法構建心智圖 prompt"⟩)
          else
            match aiResult with
            | .ok text => .ok (stripFence text)
            | .error _ => .ok ("# " ++ (room.title.getD "討論總結"))
    | none =>
      match optStrTruthy req.custom_content with
      | some cc => .ok cc
      | none => .ok (fileContent.getD default_example_markdown)

/-- The body of `generate_mindmap` before its outer `try/except`. -/
def generate_inner (rooms : String → Option Room)
    (topicsStore : List (String × TopicRec)) (votes : String → Option VoteRec)
    (aiResult : Except String String) (fileContent : Option String)
    (request : Option MindMapRequest) : Except PyExc String :=
  match generate_markdown_source rooms topicsStore votes aiResult fileContent request with
  | .error e => .error e
  | .ok md => renderPipeline md

/-- `generate_mindmap` (lines 317–444): the outer handler re-raises
`HTTPException`s unchanged and wraps any other exception in a 500. -/
def generate_mindmap (rooms : String → Option Room)
    (topicsStore : List (String × TopicRec)) (votes : String → Option VoteRec)
    (aiResult : Except String String) (fileContent : Option String)
    (request : Option MindMapRequest) : Except HTTPError String :=
  match generate_inner rooms topicsStore votes aiResult fileContent request with
  | .ok svg => .ok svg
  | .error (.http e) => .error e
  | .error (.generic m) => .error ⟨500, "生成心智圖時發生錯誤: " ++ m⟩

/-- The JSON body returned by `preview_mindmap_markdown` (lines 486–491). -/
structure PreviewResponse where
  room_code : String
  room_title : Option String
  markdown : String
  prompt_used : String
deriving DecidableEq, Repr

/-- The body of `preview_mindmap_markdown` before its blanket `except`
(lines 449–491): 400 without a room code, 404 for an unknown room, 400
when no prompt can be built, the AI failure propagating as a generic
exception, otherwise the fence-stripped markdown with the prompt. -/
def preview_inner (rooms : String → Option Room)
    (topicsStore : List (String × TopicRec)) (votes : String → Option VoteRec)
    (aiResult : Except String String) (request : MindMapRequest) :
    Except PyExc PreviewResponse :=
  match optStrTruthy request.room_code with
  | none => .error (.http ⟨400, "需要提供 room_code"⟩)
  | some rc =>
    match rooms rc with
    | none => .error (.http ⟨404, "找不到討論室: " ++ rc⟩)
    | some room =>
      match build_mindmap_prompt rooms topicsStore votes rc with
      | none => .error (.http ⟨400, "無法構建心智圖 prompt"⟩)
      | some prompt =>
        if prompt = "" then .error (.http ⟨400, "無法構建心智圖 prompt"⟩)
        else
          match aiResult with
          | .error e => .error (.generic e)
          | .ok text => .ok ⟨rc, room.title, stripFence text, prompt⟩

/-- `preview_mindmap_markdown` (lines 446–494).  Its `try` body is followed
only by a blanket `except Exception`, with no `except HTTPException:
raise`, so even the `HTTPException`s it raises itself (404/400) are caught
and re-raised as a 500 whose detail embeds `str(exc)` (starlette renders an
`HTTPException` as `f"{status_code}: {detail}"`). -/
def preview_mindmap_markdown (rooms : String → Option Room)
    (topicsStore : List (String × TopicRec)) (votes : String → Option VoteRec)
    (aiResult : Except String String) (request : MindMapRequest) :
    Except HTTPError PreviewResponse :=
  match preview_inner rooms topicsStore votes aiResult request with
  | .ok r => .ok r
  | .error e => .error ⟨500, "預覽失敗: " ++ pyExcMessage e⟩

/-! ## Helper lemmas -/

theorem updateLast_cons {α : Type} (f : α → α) (a : α) (l : List α) (h : l ≠ []) :
    updateLast f (a :: l) = a :: updateLast f l := by
  cases l with
  | nil => exact absurd rfl h
  | cons b t => rfl

theorem updateLast_append_singleton {α : Type} (f : α → α) (ts : List α) (t : α) :
    updateLast f (ts ++ [t]) = ts ++ [f t] := by
  induction ts with
  | nil => rfl
  | cons a rest ih =>
    rw [List.cons_append, updateLast_cons f a (rest ++ [t]) (by simp), ih, List.cons_append]

/-- C10: in the tree-building fold, a heading node of level 3 or deeper is
a no-op: it creates nothing and leaves the accumulated topic list (hence
the current-topic and current-subtopic cursors, which are the last topic
and its last subtopic) exactly as it was. -/
theorem deep_heading_is_noop (acc : List Topic) (nd : OutlineNode)
    (hk : nd.kind = .heading) (hl : 3 ≤ nd.level) : treeStep acc nd = acc := by
  obtain ⟨lvl, ttl, k⟩ := nd
  simp only at hk hl
  subst hk
  have h1 : lvl ≠ 1 := by omega
  have h2 : lvl ≠ 2 := by omega
  simp [treeStep, h1, h2]

theorem deep_heading_is_noop_witness :
    treeStep [⟨"A", [⟨"B", []⟩], []⟩] ⟨3, "X", .heading⟩ = [⟨"A", [⟨"B", []⟩], []⟩] :=
  deep_heading_is_noop _ _ rfl (by decide)

/-- C7: the tree-building fold attaches items to the most recently opened
container.  Concretely, for `"# A\n- x\n## B\n- y"` the topic `A` keeps the
loose item `x` and the subtopic `B` gets `y`; in general an item node
arriving while the current topic has subtopics is appended to the items of
the last-appended subtopic. -/
theorem items_attach_to_last_subtopic :
    buildTree (parse_markdown_to_simple_structure "# A\n- x\n## B\n- y")
      = [⟨"A", [⟨"B", ["y"]⟩], ["x"]⟩]
    ∧ ∀ (ts : List Topic) (t : Topic) (nd : OutlineNode),
        nd.kind = .item → t.subtopics ≠ [] →
        treeStep (ts ++ [t]) nd
          = ts ++ [{ t with subtopics := updateLast (fun s => { s with items := s.items ++ [nd.title] }) t.subtopics }] := by
  constructor
  · decide
  · intro ts t nd hk hs
    obtain ⟨lvl, ttl, k⟩ := nd
    simp only at hk
    subst hk
    have hne : ts ++ [t] ≠ [] := by simp
    simp only [treeStep, List.isEmpty_eq_false.mpr hne, if_neg, Bool.false_eq_true,
      ite_false, updateLast_append_singleton]
    rw [if_neg (by simpa using hs)]

theorem items_attach_to_last_subtopic_witness :
    treeStep ([] ++ [(⟨"A", [⟨"B", []⟩], []⟩ : Topic)]) ⟨0, "y", .item⟩
      = [] ++ [{ (⟨"A", [⟨"B", []⟩], []⟩ : Topic) with subtopics := updateLast (fun s => { s with items := s.items ++ ["y"] }) [⟨"B", []⟩] }] :=
  items_attach_to_last_subtopic.2 [] ⟨"A", [⟨"B", []⟩], []⟩ ⟨0, "y", .item⟩ rfl (by decide)

/-- C9: `wrap_text` always returns at least one line (either the single
fitting line, or the packed lines, or the `[text]` fallback), which is what
keeps the renderer's maximum-over-line-widths computations over its result
meaningful. -/
theorem wrap_text_ne_nil (text : String) (mw fs : ℚ) : wrap_text text mw fs ≠ [] := by
  unfold wrap_text
  split
  · simp
  · dsimp only
    split <;> split <;> simp_all

/-- C8: the SVG renderer is a pure function of the outline structure: equal
input structures give byte-identical documents (no timestamp or random
identifier enters `create_simple_svg_mindmap`; the timestamp only appears
in the suggested download filename, outside the document). -/
theorem svg_renderer_deterministic (s t : List OutlineNode) (h : s = t) :
    create_simple_svg_mindmap s = create_simple_svg_mindmap t := by
  rw [h]

theorem svg_renderer_deterministic_witness :
    create_simple_svg_mindmap (parse_markdown_to_simple_structure "# A")
      = create_simple_svg_mindmap (parse_markdown_to_simple_structure "# A") :=
  svg_renderer_deterministic _ _ rfl

/-- C5: the end-to-end scenario.  Parsing the six-line input yields exactly
the six expected nodes; the tree builder produces one topic with subtopics
`Sub1` (2 items) and `Sub2` (1 item); and the renderer's layout constants
place the root box center at `(100, 400)` and fan the two subtopic rows at
spacing `min 150 ((800-200)//2) = 150`, i.e. at `y = 325` and `y = 475`. -/
theorem end_to_end_scenario :
    parse_markdown_to_simple_structure "# Topic\n## Sub1\n- Item1\n- Item2\n## Sub2\n- Item3"
      = [⟨1, "Topic", .heading⟩, ⟨2, "Sub1", .heading⟩, ⟨0, "Item1", .item⟩,
         ⟨0, "Item2", .item⟩, ⟨2, "Sub2", .heading⟩, ⟨0, "Item3", .item⟩]
    ∧ (parse_markdown_to_simple_structure
        "# Topic\n## Sub1\n- Item1\n- Item2\n## Sub2\n- Item3").length = 6
    ∧ buildTree (parse_markdown_to_simple_structure
        "# Topic\n## Sub1\n- Item1\n- Item2\n## Sub2\n- Item3")
      = [⟨"Topic", [⟨"Sub1", ["Item1", "Item2"]⟩, ⟨"Sub2", ["Item3"]⟩], []⟩]
    ∧ main_x = 100 ∧ main_y = 400
    ∧ branch_spacing 2 = min 150 (qfdiv (800 - 200) 2) ∧ branch_spacing 2 = 150
    ∧ branch_y_at 2 0 = 325 ∧ branch_y_at 2 1 = 475 := by
  refine ⟨by decide, by decide, by decide, by norm_num [main_x], ?_, rfl, ?_, ?_, ?_⟩
  · norm_num [main_y, qfdiv]
  · norm_num [branch_spacing, qfdiv]
  · norm_num [branch_y_at, branch_start_y, branch_spacing, main_y, qfdiv]
  · norm_num [branch_y_at, branch_start_y, branch_spacing, main_y, qfdiv]

theorem splitOnChar_no_sep (sep : Char) (l : List Char) (h : sep ∉ l) :
    splitOnChar sep l = [l] := by
  induction l with
  | nil => rfl
  | cons c cs ih =>
    have hc : c ≠ sep := by
      intro hc
      exact h (hc ▸ List.mem_cons_self c cs)
    have hcs : sep ∉ cs := fun hm => h (List.mem_cons_of_mem c hm)
    simp [splitOnChar, hc, ih hcs]

theorem splitOnChar_append_sep (sep : Char) (l t : List Char) (h : sep ∉ l) :
    splitOnChar sep (l ++ sep :: t) = l :: splitOnChar sep t := by
  induction l with
  | nil => simp [splitOnChar]
  | cons c cs ih =>
    have hc : c ≠ sep := by
      intro hc
      exact h (hc ▸ List.mem_cons_self c cs)
    have hcs : sep ∉ cs := fun hm => h (List.mem_cons_of_mem c hm)
    simp [splitOnChar, hc, ih hcs]

theorem splitOnChar_joinWith (sep : Char) (ls : List (List Char)) (hne : ls ≠ [])
    (hfree : ∀ l ∈ ls, sep ∉ l) :
    splitOnChar sep (joinWith [sep] ls) = ls := by
  induction ls with
  | nil => exact absurd rfl hne
  | cons l rest ih =>
    cases rest with
    | nil => exact splitOnChar_no_sep sep l (hfree l (List.mem_cons_self l []))
    | cons l2 rest2 =>
      have hjoin : joinWith [sep] (l :: l2 :: rest2)
          = l ++ sep :: joinWith [sep] (l2 :: rest2) := by
        show l ++ [sep] ++ joinWith [sep] (l2 :: rest2) = _
        rw [List.append_assoc]
        rfl
      rw [hjoin, splitOnChar_append_sep sep _ _ (hfree l (List.mem_cons_self l _)),
        ih (by simp) (fun x hx => hfree x (List.mem_cons_of_mem l hx))]

theorem build_prompt_of_room (rooms : String → Option Room)
    (ts : List (String × TopicRec)) (vs : String → Option VoteRec)
    (rc : String) (room : Room) (h : rooms rc = some room) :
    ∃ x, build_mindmap_prompt rooms ts vs rc
      = some ("請為以下討論室的內容生成一個結構化的心智圖 Markdown 格式總結。" ++ x) := by
  unfold build_mindmap_prompt
  rw [h]
  dsimp only
  split
  · exact ⟨_, rfl⟩
  · exact ⟨_, rfl⟩

theorem prompt_ne_empty (x : String) :
    ("請為以下討論室的內容生成一個結構化的心智圖 Markdown 格式總結。" ++ x) ≠ "" := by
  intro h
  have h2 := congrArg String.length h
  rw [String.length_append] at h2
  have h3 : 0 < ("請為以下討論室的內容生成一個結構化的心智圖 Markdown 格式總結。" : String).length := by
    decide
  have h4 : ("" : String).length = 0 := rfl
  omega

/-- C6: the fence cleanup shared by both endpoints (`stripFence`, applied
to the AI text in `generate_mindmap` and `preview_mindmap_markdown`): when
the trimmed AI text starts with a triple-backtick fence, then if it has
more than 2 physical lines exactly the first and last line are dropped
(whether or not the last one is a closing fence), and with 2 or fewer
lines it is left unchanged; moreover both operations do apply `stripFence`
to the AI's successful reply. -/
theorem fence_stripping_spec (raw : String) (ls : List (List Char))
    (hne : ls ≠ []) (hfree : ∀ l ∈ ls, '\n' ∉ l)
    (hdecomp : (pyStrip raw).data = joinWith ['\n'] ls)
    (hfence : ("```".data).isPrefixOf (pyStrip raw).data) :
    (2 < ls.length → stripFence raw = ⟨joinWith ['\n'] ((ls.drop 1).dropLast)⟩)
    ∧ (ls.length ≤ 2 → stripFence raw = pyStrip raw)
    ∧ ∀ (rooms : String → Option Room) (ts : List (String × TopicRec))
        (vs : String → Option VoteRec) (fc : Option String) (rc : String) (room : Room)
        (cc rq : Option String), rc ≠ "" → rooms rc = some room →
        generate_markdown_source rooms ts vs (.ok raw) fc (some ⟨some rc, cc⟩)
          = .ok (stripFence raw)
        ∧ ∃ r, preview_mindmap_markdown rooms ts vs (.ok raw) ⟨some rc, rq⟩ = .ok r
            ∧ r.markdown = stripFence raw := by
  have hsplit : splitOnChar '\n' (pyStrip raw).data = ls := by
    rw [hdecomp]
    exact splitOnChar_joinWith '\n' ls hne hfree
  refine ⟨?_, ?_, ?_⟩
  · intro hlen
    unfold stripFence
    rw [if_pos hfence, hsplit, if_pos hlen]
  · intro hlen
    unfold stripFence
    rw [if_pos hfence, hsplit, if_neg (by omega)]
  · intro rooms ts vs fc rc room cc rq hrc hroom
    obtain ⟨x, hprompt⟩ := build_prompt_of_room rooms ts vs rc room hroom
    constructor
    · unfold generate_markdown_source
      simp only [optStrTruthy, if_neg hrc, hroom, hprompt, if_neg (prompt_ne_empty x)]
    · refine ⟨⟨rc, room.title, stripFence raw,
        "請為以下討論室的內容生成一個結構化的心智圖 Markdown 格式總結。" ++ x⟩, ?_, rfl⟩
      unfold preview_mindmap_markdown preview_inner
      simp only [optStrTruthy, if_neg hrc, hroom, hprompt, if_neg (prompt_ne_empty x)]

theorem dropWhile_append_singleton (p : Char → Bool) (l : List Char) (c : Char)
    (h : p c = false) : List.dropWhile p (l ++ [c]) = List.dropWhile p l ++ [c] := by
  induction l with
  | nil => simp [List.dropWhile, h]
  | cons a t ih => by_cases hp : p a <;> simp [List.dropWhile, hp, ih]

theorem stripRight_cons (c : Char) (t : List Char) (h : pyIsSpace c = false) :
    stripRight (c :: t) = c :: stripRight t := by
  unfold stripRight
  rw [List.reverse_cons, dropWhile_append_singleton pyIsSpace t.reverse c h,
    List.reverse_append]
  rfl

theorem stripChars_hash_cons (t : List Char) :
    stripChars ('#' :: t) = '#' :: stripRight t := by
  unfold stripChars stripLeft
  rw [List.dropWhile_cons_of_neg (by decide), stripRight_cons '#' t (by decide)]

theorem splitOnChar_ne_nil (sep : Char) (l : List Char) : splitOnChar sep l ≠ [] := by
  cases l with
  | nil => simp [splitOnChar]
  | cons c cs =>
    simp only [splitOnChar]
    split
    · simp
    · split <;> simp

theorem splitOnChar_cons_head (sep c : Char) (cs : List Char) (h : c ≠ sep) :
    ∃ h1 t1, splitOnChar sep (c :: cs) = (c :: h1) :: t1 := by
  unfold splitOnChar
  rw [if_neg h]
  obtain ⟨w, ws, hr⟩ := List.exists_cons_of_ne_nil (splitOnChar_ne_nil sep cs)
  rw [hr]
  exact ⟨w, ws, rfl⟩

theorem lineNodes_hash (h : List Char) :
    lineNodes ('#' :: h)
      = [⟨('#' :: stripRight h).length - (lstripSet ['#'] ('#' :: stripRight h)).length,
          ⟨stripChars (lstripSet ['#', ' '] ('#' :: stripRight h))⟩, .heading⟩] := by
  unfold lineNodes
  rw [stripChars_hash_cons]
  rfl

theorem foldl_lineNodes (ls : List (List Char)) (acc : List OutlineNode) :
    ls.foldl (fun st l => st ++ lineNodes l) acc
      = acc ++ ls.foldl (fun st l => st ++ lineNodes l) [] := by
  induction ls generalizing acc with
  | nil => simp
  | cons l rest ih =>
    simp only [List.foldl_cons, List.nil_append]
    rw [ih (acc ++ lineNodes l), ih (lineNodes l), List.append_assoc]

/-- Any markdown of the shape `"# " ++ s` parses to a nonempty outline:
its first physical line still starts with `#` after stripping, so the
parser emits at least one heading node. -/
theorem parse_hash_ne_nil (s : String) :
    parse_markdown_to_simple_structure ("# " ++ s) ≠ [] := by
  unfold parse_markdown_to_simple_structure
  have hdata : (pyStrip ("# " ++ s)).data = '#' :: stripRight (' ' :: s.data) := by
    show stripChars (("# " ++ s).data) = _
    rw [String.data_append]
    exact stripChars_hash_cons (' ' :: s.data)
  rw [hdata]
  obtain ⟨h1, t1, hsplit⟩ := splitOnChar_cons_head '\n' '#' _ (by decide)
  rw [hsplit]
  simp only [List.foldl_cons, List.nil_append]
  rw [foldl_lineNodes, lineNodes_hash]
  simp

theorem fence_stripping_spec_witness :
    (stripFence "```\n# A\n```" = ⟨joinWith ['\n'] ((["```".data, "# A".data, "```".data].drop 1).dropLast)⟩)
    ∧ stripFence "```\n# A\n```" = "# A" := by
  constructor
  · exact (fence_stripping_spec "```\n# A\n```" ["```".data, "# A".data, "```".data]
      (by decide) (by decide) (by decide) (by decide)).1 (by decide)
  · decide

/-- C1: when the awaited AI interaction raises during full generation with
a room code, the failure is recovered locally — the markdown becomes
`"# " + room title` and the pipeline still returns an SVG document — while
the same failure during the preview operation surfaces to the caller as a
generic HTTP 500 with no fallback markdown. -/
theorem ai_failure_fallback_vs_preview_500 (rooms : String → Option Room)
    (ts : List (String × TopicRec)) (vs : String → Option VoteRec)
    (fc : Option String) (rc : String) (room : Room) (ttl e : String)
    (cc rq : Option String)
    (h : rooms rc = some room) (ht : room.title = some ttl) (hrc : rc ≠ "") :
    generate_mindmap rooms ts vs (.error e) fc (some ⟨some rc, cc⟩)
      = .ok (create_simple_svg_mindmap (parse_markdown_to_simple_structure ("# " ++ ttl)))
    ∧ preview_mindmap_markdown rooms ts vs (.error e) ⟨some rc, rq⟩
      = .error ⟨500, "預覽失敗: " ++ e⟩ := by
  obtain ⟨x, hprompt⟩ := build_prompt_of_room rooms ts vs rc room h
  constructor
  · have hsrc : generate_markdown_source rooms ts vs (.error e) fc (some ⟨some rc, cc⟩)
        = .ok ("# " ++ ttl) := by
      unfold generate_markdown_source
      simp only [optStrTruthy, if_neg hrc, h, hprompt, if_neg (prompt_ne_empty x), ht,
        Option.getD_some]
    have hpipe : renderPipeline ("# " ++ ttl)
        = .ok (create_simple_svg_mindmap (parse_markdown_to_simple_structure ("# " ++ ttl))) := by
      simp only [renderPipeline, List.isEmpty_eq_false.mpr (parse_hash_ne_nil ttl),
        Bool.false_eq_true, if_false]
    unfold generate_mindmap generate_inner
    rw [hsrc]
    dsimp only
    rw [hpipe]
  · unfold preview_mindmap_markdown preview_inner
    simp only [optStrTruthy, if_neg hrc, h, hprompt, if_neg (prompt_ne_empty x)]
    rfl

theorem ai_failure_fallback_vs_preview_500_witness :
    generate_mindmap (fun c => if c = "R1" then some ⟨some "T1", some "ws"⟩ else none)
        [] (fun _ => none) (.error "boom") none (some ⟨some "R1", none⟩)
      = .ok (create_simple_svg_mindmap (parse_markdown_to_simple_structure ("# " ++ "T1")))
    ∧ preview_mindmap_markdown (fun c => if c = "R1" then some ⟨some "T1", some "ws"⟩ else none)
        [] (fun _ => none) (.error "boom") ⟨some "R1", none⟩
      = .error ⟨500, "預覽失敗: " ++ "boom"⟩ :=
  ai_failure_fallback_vs_preview_500 _ [] _ none "R1" ⟨some "T1", some "ws"⟩ "T1" "boom"
    none none (by decide) rfl (by decide)

/-- C2: the two empty states differ.  When the outline parser yields an
empty node sequence, `generate_mindmap` answers HTTP 400 and renders
nothing; when the parse is nonempty but the tree builder finds no level-1
topic, the renderer substitutes the canned demonstration topic
(`人工智慧的未來` with two subtopics) and still emits a complete SVG
document. -/
theorem empty_parse_400_vs_empty_tree_default (rooms : String → Option Room)
    (ts : List (String × TopicRec)) (vs : String → Option VoteRec)
    (ai : Except String String) (fc : Option String) (cc : String)
    (st : List OutlineNode)
    (hcc : cc ≠ "") (hparse : parse_markdown_to_simple_structure cc = [])
    (htree : buildTree st = []) :
    generate_mindmap rooms ts vs ai fc (some ⟨none, some cc⟩)
      = .error ⟨400, "無法解析markdown內容"⟩
    ∧ create_simple_svg_mindmap st = svgOfTopics default_main_topics
    ∧ default_main_topics
      = [⟨"人工智慧的未來",
          [⟨"技術發展", ["機器學習進步", "深度學習突破", "自然語言處理"]⟩,
           ⟨"應用領域", ["醫療診斷", "智能交通", "金融科技"]⟩], []⟩]
    ∧ (∀ md, parse_markdown_to_simple_structure md = [] →
        renderPipeline md = .error (.http ⟨400, "無法解析markdown內容"⟩))
    ∧ ∃ body, create_simple_svg_mindmap st = svgHeader ++ body ++ "</svg>" := by
  have hone : create_simple_svg_mindmap st = svgOfTopics default_main_topics := by
    unfold create_simple_svg_mindmap
    rw [htree]
    rfl
  refine ⟨?_, hone, rfl, ?_, ⟨_, hone⟩⟩
  · unfold generate_mindmap generate_inner generate_markdown_source
    simp only [optStrTruthy, if_neg hcc]
    unfold renderPipeline
    rw [hparse]
    rfl
  · intro md hmd
    unfold renderPipeline
    rw [hmd]
    rfl

theorem empty_parse_400_vs_empty_tree_default_witness :
    generate_mindmap (fun _ => none) [] (fun _ => none) (.ok "x") none
        (some ⟨none, some "hello world"⟩)
      = .error ⟨400, "無法解析markdown內容"⟩
    ∧ create_simple_svg_mindmap [⟨2, "B", .heading⟩] = svgOfTopics default_main_topics
    ∧ default_main_topics
      = [⟨"人工智慧的未來",
          [⟨"技術發展", ["機器學習進步", "深度學習突破", "自然語言處理"]⟩,
           ⟨"應用領域", ["醫療診斷", "智能交通", "金融科技"]⟩], []⟩]
    ∧ (∀ md, parse_markdown_to_simple_structure md = [] →
        renderPipeline md = .error (.http ⟨400, "無法解析markdown內容"⟩))
    ∧ ∃ body, create_simple_svg_mindmap [⟨2, "B", .heading⟩] = svgHeader ++ body ++ "</svg>" :=
  empty_parse_400_vs_empty_tree_default (fun _ => none) [] (fun _ => none) (.ok "x") none
    "hello world" [⟨2, "B", .heading⟩] (by decide) (by decide) (by decide)

/-- C3 (as the code behaves): an unknown room code makes `generate_mindmap`
answer HTTP 404 with no retry, but `preview_mindmap_markdown`'s blanket
`except Exception` catches its own `HTTPException(404)` and re-raises it as
an HTTP 500 wrapping the not-found message — the preview operation never
reports a 404 — contradicting the claim that both report 404. -/
theorem room_not_found_generate_404_preview_500 (rooms : String → Option Room)
    (ts : List (String × TopicRec)) (vs : String → Option VoteRec)
    (ai : Except String String) (fc : Option String) (rc : String)
    (cc rq : Option String) (h : rooms rc = none) (hrc : rc ≠ "") :
    generate_mindmap rooms ts vs ai fc (some ⟨some rc, cc⟩)
      = .error ⟨404, "找不到討論室: " ++ rc⟩
    ∧ preview_mindmap_markdown rooms ts vs ai ⟨some rc, rq⟩
      = .error ⟨500, "預覽失敗: " ++ pyExcMessage (.http ⟨404, "找不到討論室: " ++ rc⟩)⟩
    ∧ ∀ d, preview_mindmap_markdown rooms ts vs ai ⟨some rc, rq⟩ ≠ .error ⟨404, d⟩ := by
  have hprev : preview_mindmap_markdown rooms ts vs ai ⟨some rc, rq⟩
      = .error ⟨500, "預覽失敗: " ++ pyExcMessage (.http ⟨404, "找不到討論室: " ++ rc⟩)⟩ := by
    unfold preview_mindmap_markdown preview_inner
    simp only [optStrTruthy, if_neg hrc, h]
  refine ⟨?_, hprev, ?_⟩
  · unfold generate_mindmap generate_inner generate_markdown_source
    simp only [optStrTruthy, if_neg hrc, h]
  · intro d hcontra
    rw [hprev] at hcontra
    have : (500 : Nat) = 404 := congrArg HTTPError.status_code (Except.error.inj hcontra)
    omega

/-! ### Word preservation of the greedy wrapper (C4) -/

/-- A word as produced by `str.split()`: nonempty and whitespace-free. -/
def goodWord (w : List Char) : Prop := w ≠ [] ∧ ∀ c ∈ w, pyIsSpace c = false

theorem splitWS_cons_space (c : Char) (cs : List Char) (h : pyIsSpace c = true) :
    splitWS (c :: cs) = splitWS cs := by
  simp [splitWS, h]

theorem splitWS_single (c : Char) (h : pyIsSpace c = false) :
    splitWS [c] = [[c]] := by
  simp [splitWS, h]

theorem splitWS_cons_cons_space (c d : Char) (cs : List Char)
    (hc : pyIsSpace c = false) (hd : pyIsSpace d = true) :
    splitWS (c :: d :: cs) = [c] :: splitWS (d :: cs) := by
  simp [splitWS, hc, hd]

theorem splitWS_cons_eq (c : Char) (cs : List Char) :
    splitWS (c :: cs) =
      if pyIsSpace c then splitWS cs
      else
        match cs with
        | [] => [[c]]
        | d :: _ =>
          if pyIsSpace d then [c] :: splitWS cs
          else
            match splitWS cs with
            | [] => [[c]]
            | w :: ws => (c :: w) :: ws := rfl

theorem splitWS_cons_cons_word (c d : Char) (cs : List Char) (w : List Char)
    (ws : List (List Char)) (hc : pyIsSpace c = false) (hd : pyIsSpace d = false)
    (hr : splitWS (d :: cs) = w :: ws) :
    splitWS (c :: d :: cs) = (c :: w) :: ws := by
  rw [splitWS_cons_eq c (d :: cs)]
  simp only [hc, hd, Bool.false_eq_true, if_false, hr]

theorem splitWS_ne_nil (c : Char) (cs : List Char) (h : pyIsSpace c = false) :
    splitWS (c :: cs) ≠ [] := by
  rw [splitWS_cons_eq c cs]
  simp only [h, Bool.false_eq_true, if_false]
  cases cs with
  | nil => simp
  | cons d cs' =>
    by_cases hd : pyIsSpace d
    · simp [hd]
    · simp only [hd, Bool.false_eq_true, if_false]
      split <;> simp

theorem mem_splitWS_good (l : List Char) : ∀ w ∈ splitWS l, goodWord w := by
  induction l with
  | nil => intro w hw; simp [splitWS] at hw
  | cons c cs ih =>
    by_cases hc : pyIsSpace c
    · rw [splitWS_cons_space c cs hc]
      exact ih
    · have hc' : pyIsSpace c = false := Bool.not_eq_true _ ▸ hc
      cases cs with
      | nil =>
        intro w hw
        rw [splitWS_single c hc'] at hw
        simp at hw
        subst hw
        exact ⟨by simp, by simpa using hc'⟩
      | cons d cs' =>
        by_cases hd : pyIsSpace d
        · rw [splitWS_cons_cons_space c d cs' hc' hd]
          intro w hw
          rcases List.mem_cons.mp hw with h1 | h2
          · subst h1; exact ⟨by simp, by simpa using hc'⟩
          · exact ih w h2
        · have hd' : pyIsSpace d = false := Bool.not_eq_true _ ▸ hd
          obtain ⟨w0, ws0, hr⟩ := List.exists_cons_of_ne_nil (splitWS_ne_nil d cs' hd')
          rw [splitWS_cons_cons_word c d cs' w0 ws0 hc' hd' hr]
          intro w hw
          rcases List.mem_cons.mp hw with h1 | h2
          · subst h1
            have hg0 : goodWord w0 := ih w0 (hr ▸ List.mem_cons_self w0 ws0)
            refine ⟨by simp, ?_⟩
            intro x hx
            rcases List.mem_cons.mp hx with h3 | h4
            · subst h3; exact hc'
            · exact hg0.2 x h4
          · exact ih w (hr ▸ List.mem_cons_of_mem w0 h2)

theorem splitWS_goodWord (w : List Char) (hg : goodWord w) : splitWS w = [w] := by
  induction w with
  | nil => exact absurd rfl hg.1
  | cons c cs ih =>
    have hc : pyIsSpace c = false := hg.2 c (List.mem_cons_self c cs)
    cases cs with
    | nil => exact splitWS_single c hc
    | cons d cs' =>
      have hd : pyIsSpace d = false := hg.2 d (List.mem_cons_of_mem c (List.mem_cons_self d cs'))
      have hg' : goodWord (d :: cs') :=
        ⟨by simp, fun x hx => hg.2 x (List.mem_cons_of_mem c hx)⟩
      exact splitWS_cons_cons_word c d cs' (d :: cs') [] hc hd (ih hg')

theorem splitWS_word_space (w : List Char) (hg : goodWord w) (l : List Char) :
    splitWS (w ++ ' ' :: l) = w :: splitWS l := by
  induction w with
  | nil => exact absurd rfl hg.1
  | cons c cs ih =>
    have hc : pyIsSpace c = false := hg.2 c (List.mem_cons_self c cs)
    cases cs with
    | nil =>
      rw [List.cons_append, List.nil_append,
        splitWS_cons_cons_space c ' ' l hc (by decide),
        splitWS_cons_space ' ' l (by decide)]
    | cons d cs' =>
      have hd : pyIsSpace d = false := hg.2 d (List.mem_cons_of_mem c (List.mem_cons_self d cs'))
      have hg' : goodWord (d :: cs') :=
        ⟨by simp, fun x hx => hg.2 x (List.mem_cons_of_mem c hx)⟩
      have hrec : splitWS (d :: (cs' ++ ' ' :: l)) = (d :: cs') :: splitWS l := by
        have := ih hg'
        rwa [List.cons_append] at this
      rw [List.cons_append, List.cons_append]
      exact splitWS_cons_cons_word c d (cs' ++ ' ' :: l) (d :: cs') (splitWS l) hc hd hrec

theorem joinWith_space_append (ws : List (List Char)) (v : List Char) (hne : ws ≠ []) :
    joinWith [' '] (ws ++ [v]) = joinWith [' '] ws ++ ' ' :: v := by
  induction ws with
  | nil => exact absurd rfl hne
  | cons w0 rest ih =>
    cases rest with
    | nil => simp [joinWith]
    | cons w1 rest2 =>
      have : joinWith [' '] ((w0 :: w1 :: rest2) ++ [v])
          = w0 ++ [' '] ++ joinWith [' '] ((w1 :: rest2) ++ [v]) := rfl
      rw [this, ih (by simp)]
      show _ = w0 ++ [' '] ++ joinWith [' '] (w1 :: rest2) ++ ' ' :: v
      simp [List.append_assoc]

theorem splitWS_joinWith_space (ws : List (List Char)) (hne : ws ≠ [])
    (hgood : ∀ w ∈ ws, goodWord w) : splitWS (joinWith [' '] ws) = ws := by
  induction ws with
  | nil => exact absurd rfl hne
  | cons w0 rest ih =>
    cases rest with
    | nil => exact splitWS_goodWord w0 (hgood w0 (List.mem_cons_self w0 []))
    | cons w1 rest2 =>
      have hj : joinWith [' '] (w0 :: w1 :: rest2)
          = w0 ++ ' ' :: joinWith [' '] (w1 :: rest2) := by
        show w0 ++ [' '] ++ joinWith [' '] (w1 :: rest2) = _
        rw [List.append_assoc]
        rfl
      rw [hj, splitWS_word_space w0 (hgood w0 (List.mem_cons_self w0 _)) _,
        ih (by simp) (fun x hx => hgood x (List.mem_cons_of_mem w0 hx))]

/-- The multiset of character-level words held by a wrapper state
(lines so far, current line). -/
def wordsOfState (st : List String × String) : List (List Char) :=
  (st.1.flatMap fun l => splitWS l.data) ++ splitWS st.2.data

/-- `s` is the single-space join of the nonempty word list `ws`. -/
def IsJoin (s : String) (ws : List (List Char)) : Prop :=
  s.data = joinWith [' '] ws ∧ ws ≠ [] ∧ ∀ w ∈ ws, goodWord w

/-- Every closed line is a join of words. -/
def GoodLines (ls : List String) : Prop := ∀ l ∈ ls, ∃ ws, IsJoin l ws

/-- The current line is empty or a join of words. -/
def GoodCur (c : String) : Prop := c = "" ∨ ∃ ws, IsJoin c ws

theorem splitWS_of_isJoin (s : String) (ws : List (List Char)) (h : IsJoin s ws) :
    splitWS s.data = ws := by
  rw [h.1]
  exact splitWS_joinWith_space ws h.2.1 h.2.2

theorem isJoin_single (w : String) (hw : goodWord w.data) : IsJoin w [w.data] := by
  refine ⟨rfl, by simp, ?_⟩
  intro x hx
  simp at hx
  subst hx
  exact hw

theorem isJoin_extend (s w : String) (ws : List (List Char)) (hj : IsJoin s ws)
    (hw : goodWord w.data) : IsJoin (s ++ " " ++ w) (ws ++ [w.data]) := by
  refine ⟨?_, by simp, ?_⟩
  · rw [String.data_append, String.data_append, hj.1,
      joinWith_space_append ws w.data hj.2.1, List.append_assoc]
    rfl
  · intro x hx
    rcases List.mem_append.mp hx with h1 | h2
    · exact hj.2.2 x h1
    · simp at h2
      subst h2
      exact hw

theorem wrapStep_invariant (mw fs : ℚ) (st : List String × String) (w : String)
    (hw : goodWord w.data) (hl : GoodLines st.1) (hc : GoodCur st.2) :
    GoodLines (wrapStep mw fs st w).1 ∧ GoodCur (wrapStep mw fs st w).2
    ∧ wordsOfState (wrapStep mw fs st w) = wordsOfState st ++ [w.data] := by
  by_cases hs2 : st.2 = ""
  · have hres : wrapStep mw fs st w = (st.1, w) := by
      unfold wrapStep
      rw [hs2]
      simp
    rw [hres]
    refine ⟨hl, Or.inr ⟨[w.data], isJoin_single w hw⟩, ?_⟩
    unfold wordsOfState
    rw [hs2]
    simp [splitWS_goodWord w.data hw, splitWS]
  · obtain ⟨ws, hj⟩ := hc.resolve_left hs2
    have hcur : splitWS st.2.data = ws := splitWS_of_isJoin st.2 ws hj
    simp only [wrapStep, if_neg hs2]
    split
    · -- the extended line fits: state becomes (st.1, st.2 ++ " " ++ w)
      refine ⟨hl, Or.inr ⟨ws ++ [w.data], isJoin_extend st.2 w ws hj hw⟩, ?_⟩
      unfold wordsOfState
      rw [splitWS_of_isJoin _ _ (isJoin_extend st.2 w ws hj hw), hcur,
        List.append_assoc]
    · -- overflow: close the current line, start a new one with the word
      refine ⟨?_, Or.inr ⟨[w.data], isJoin_single w hw⟩, ?_⟩
      · intro l hlmem
        rcases List.mem_append.mp hlmem with h1 | h2
        · exact hl l h1
        · simp at h2
          subst h2
          exact ⟨ws, hj⟩
      · unfold wordsOfState
        rw [List.flatMap_append, splitWS_goodWord w.data hw, hcur]
        simp [hcur]

theorem wrap_fold_invariant (mw fs : ℚ) (words : List String) :
    ∀ (st : List String × String), (∀ w ∈ words, goodWord w.data) →
    GoodLines st.1 → GoodCur st.2 →
    GoodLines (words.foldl (wrapStep mw fs) st).1
    ∧ GoodCur (words.foldl (wrapStep mw fs) st).2
    ∧ wordsOfState (words.foldl (wrapStep mw fs) st)
      = wordsOfState st ++ words.map String.data := by
  induction words with
  | nil =>
    intro st _ hl hc
    exact ⟨hl, hc, by simp⟩
  | cons w rest ih =>
    intro st hw hl hc
    obtain ⟨hl1, hc1, heq1⟩ :=
      wrapStep_invariant mw fs st w (hw w (List.mem_cons_self w rest)) hl hc
    obtain ⟨hl2, hc2, heq2⟩ := ih (wrapStep mw fs st w)
      (fun x hx => hw x (List.mem_cons_of_mem w hx)) hl1 hc1
    refine ⟨by simpa using hl2, by simpa using hc2, ?_⟩
    simp only [List.foldl_cons, List.map_cons]
    rw [heq2, heq1, List.append_assoc]
    rfl

theorem pySplitWords_good (s : String) : ∀ w ∈ pySplitWords s, goodWord w.data := by
  intro w hw
  unfold pySplitWords at hw
  obtain ⟨w0, hw0, hmk⟩ := List.mem_map.mp hw
  subst hmk
  exact mem_splitWS_good s.data w0 hw0

theorem pySplitWords_map_data (s : String) :
    (pySplitWords s).map String.data = splitWS s.data := by
  unfold pySplitWords
  rw [List.map_map]
  exact List.map_id' _

/-- C4: `wrap_text` returns `[text]` unchanged whenever the measured width
fits the budget, and in every case the whitespace-separated words of the
returned lines, concatenated in order, are exactly the whitespace-separated
words of the input — the greedy packing loses and duplicates nothing. -/
theorem wrap_text_word_preservation (text : String) (mw fs : ℚ) :
    (calculate_text_width text fs ≤ mw → wrap_text text mw fs = [text])
    ∧ (wrap_text text mw fs).flatMap pySplitWords = pySplitWords text := by
  constructor
  · intro hfit
    unfold wrap_text
    rw [if_pos hfit]
  · unfold wrap_text
    split
    · simp
    · obtain ⟨hl, hc, hwords⟩ := wrap_fold_invariant mw fs (pySplitWords text) ([], "")
        (pySplitWords_good text) (by intro l hlm; simp at hlm) (Or.inl rfl)
      have hstart : wordsOfState (([], "") : List String × String) = [] := rfl
      rw [hstart, List.nil_append, pySplitWords_map_data] at hwords
      dsimp only
      generalize hgen : List.foldl (wrapStep mw fs) ([], "") (pySplitWords text) = p
        at hwords hl hc ⊢
      by_cases h2 : p.2 = ""
      · simp only [if_pos h2]
        have key : p.1.flatMap (fun l => splitWS l.data) = splitWS text.data := by
          rw [← hwords]
          unfold wordsOfState
          rw [h2]
          show _ = _ ++ splitWS []
          rw [show splitWS [] = [] from rfl, List.append_nil]
        by_cases hnil : p.1.isEmpty
        · rw [if_pos hnil]
          simp
        · rw [if_neg hnil]
          unfold pySplitWords
          rw [← List.map_flatMap, key]
      · simp only [if_neg h2]
        have hne : ((p.1 ++ [p.2]).isEmpty) = false := by simp
        rw [hne]
        simp only [Bool.false_eq_true, if_false]
        have key : (p.1 ++ [p.2]).flatMap (fun l => splitWS l.data) = splitWS text.data := by
          rw [← hwords]
          unfold wordsOfState
          simp
        unfold pySplitWords
        rw [← List.map_flatMap, key]

theorem wrap_text_word_preservation_witness :
    wrap_text "ab" 100 10 = ["ab"]
    ∧ (wrap_text "ab" 100 10).flatMap pySplitWords = pySplitWords "ab" := by
  have hfit : calculate_text_width "ab" 10 ≤ 100 := by
    have h0 : (List.filter (fun c => decide (127 < c.toNat)) ("ab".data)).length = 0 := by
      decide
    have h2 : ("ab".data).length = 2 := by decide
    unfold calculate_text_width
    rw [h0, h2]
    norm_num
  exact ⟨(wrap_text_word_preservation "ab" 100 10).1 hfit,
    (wrap_text_word_preservation "ab" 100 10).2⟩

theorem room_not_found_generate_404_preview_500_witness :
    generate_mindmap (fun _ => none) [] (fun _ => none) (.ok "x") none
        (some ⟨some "NOPE", none⟩)
      = .error ⟨404, "找不到討論室: " ++ "NOPE"⟩
    ∧ preview_mindmap_markdown (fun _ => none) [] (fun _ => none) (.ok "x") ⟨some "NOPE", none⟩
      = .error ⟨500, "預覽失敗: " ++ pyExcMessage (.http ⟨404, "找不到討論室: " ++ "NOPE"⟩)⟩
    ∧ ∀ d, preview_mindmap_markdown (fun _ => none) [] (fun _ => none) (.ok "x")
        ⟨some "NOPE", none⟩ ≠ .error ⟨404, d⟩ :=
  room_not_found_generate_404_preview_500 (fun _ => none) [] (fun _ => none) (.ok "x") none
    "NOPE" none none rfl (by decide)

end MBBuddy
